import Mathlib

/-!
Verification of the `recovery` Go package (fault isolation + restart
supervision + exponential backoff).

Shallow embedding conventions:
* Go `error` values are modelled by their message text, `Option GoErr`
  with `none` for the nil error.
* Panic payloads are modelled by `PanicVal`: either the nil value or a Go
  string value.  A function that panics is modelled by returning
  `Option`s `none` where the source would diverge abnormally.
* Randomness is modelled by an explicit entropy oracle: each call to
  `rand.Intn` consumes one natural number and reduces it modulo the bound.
* Machine integers are modelled by `Nat`.  The source computes the backoff
  formula in `float64` (`math.Pow`, `math.Min`); for the magnitudes the
  package operates on (bases up to the 64000 ms cap and jitter below
  5000 ms) `float64` arithmetic is exact, so the model uses exact natural
  arithmetic.
* The supervision loops (`WithRestart`, `UntilSuccessful`) run until the
  supervised task succeeds.  They are modelled as recursion over a finite
  trace of attempt outcomes, returning `none` when the trace is exhausted
  without a success (the loop would still be running), and otherwise the
  number of task invocations performed together with the list of backoff
  sleeps, each recorded as (attempt counter passed to Backoff, slept
  milliseconds).  Logging calls have no observable effect in the model.
-/

namespace Recovery

/-- Go error values, by their `Error()` text. -/
abbrev GoErr := String

/-- A value passed to `panic`: nil, or a Go string (the payloads this
model covers). -/
inductive PanicVal where
  | nilVal : PanicVal
  | strVal (s : String) : PanicVal
deriving DecidableEq, Repr

/-- The outcome of one invocation of a supervised task: a normal return
carrying `error` (`none` = nil), or a panic with a payload. -/
inductive TaskResult where
  | returns (err : Option GoErr) : TaskResult
  | panics (val : PanicVal) : TaskResult
deriving DecidableEq, Repr

/-- `rand.Intn n` (src/unnamed/part_000 line 35): panics (`none`) if
`n = 0` (Go: if `n <= 0`), otherwise returns a value in `[0, n)`, modelled
by reducing the entropy oracle modulo `n`. -/
def randIntn (n : ℕ) (entropy : ℕ) : Option ℕ :=
  if n = 0 then none else some (entropy % n)

/-- The uncapped base term `math.Pow(2, float64(attempts)) * 1000` of the
backoff formula (src/unnamed/part_000 line 36). -/
def backoffBaseMs (attempts : ℕ) : ℕ := 2 ^ attempts * 1000

/-- `ExponentialBackoffMS(attempts, jitterMS, maxMS)`
(src/unnamed/part_000 lines 33-38):
`randomMs := rand.Intn(jitterMS)` — panics (`none`) when `jitterMS = 0` —
then returns `min(2^attempts*1000 + randomMs, maxMS)`. -/
def ExponentialBackoffMS (attempts jitterMS maxMS : ℕ) (entropy : ℕ) :
    Option ℕ :=
  (randIntn jitterMS entropy).map fun randomMs =>
    min (backoffBaseMs attempts + randomMs) maxMS

/-- `GetNextBackOffMilliseconds(attempts)` (src/unnamed/part_000
lines 41-43): `ExponentialBackoffMS(attempts, 5000, 64000)`. -/
def GetNextBackOffMilliseconds (attempts : ℕ) (entropy : ℕ) : Option ℕ :=
  ExponentialBackoffMS attempts 5000 64000 entropy

/-- The convenience form as the spec words it (for the refinement claim):
`min(2^attempts*1000 + r, 64000)` with `r` drawn from `[0, 5000)`. -/
def nextBackoffMsSpec (attempts : ℕ) (entropy : ℕ) : ℕ :=
  min (2 ^ attempts * 1000 + entropy % 5000) 64000

/-- `fmt.Sprintf("%#v", s)` for a Go string value `s`
(src/dont_panic.go line 37): the Go-syntax quoted form. -/
def goSharpV (s : String) : String :=
  "\"" ++ String.join (s.toList.map fun c =>
    if c = '\\' then "\\\\" else if c = '"' then "\\\"" else String.singleton c)
    ++ "\""

/-- `DontPanic(opName, f)` (src/dont_panic.go lines 33-43), applied to the
outcome of `f`'s invocation.  A normal return passes the task's error
through.  A panic is stopped by `recover()`; if the recovered payload is
non-nil the named return is set to `fmt.Errorf("%#v", panicErr)`, while a
nil payload leaves the zero-valued named return in place (the `panicErr !=
nil` guard fails), so `DontPanic` returns nil. -/
def DontPanic (opName : String) (res : TaskResult) : Option GoErr :=
  match res with
  | .returns e => e
  | .panics .nilVal => none
  | .panics (.strVal s) => some (goSharpV s)

/-- The milliseconds slept by `Backoff(attempts, jitterMS, maxMS)`
(src/unnamed/part_000 lines 22-25).  Both supervisors call it with
`jitterMS = 100`, so the `getD` default is never reached there. -/
def BackoffMs (attempts jitterMS maxMS : ℕ) (entropy : ℕ) : ℕ :=
  (ExponentialBackoffMS attempts jitterMS maxMS entropy).getD 0

/-- `minFunctionRuntimeSecs` (src/dont_panic.go line 76). -/
def minFunctionRuntimeSecs : ℕ := 60

/-- One attempt as observed by `WithRestart`: the task's outcome and the
wall-clock duration `time.Since(start)` of the invocation, in
milliseconds. -/
structure Attempt where
  result : TaskResult
  elapsedMs : ℕ
deriving DecidableEq, Repr

/-- The loop body of `WithRestart` (src/dont_panic.go lines 78-96) over a
finite trace of attempts, carrying the `attempt` counter.  Returns `none`
if the trace ends with no successful attempt (the loop would still run),
otherwise the number of task invocations and the backoff sleeps performed,
each as (counter passed to `Backoff`, slept ms).  `jitter = 100`,
`maxBackoff = 64000`; an attempt that failed after running at least
`minFunctionRuntimeSecs` resets the counter and does not sleep. -/
def WithRestartAux (opName : String) :
    List Attempt → List ℕ → ℕ → Option (ℕ × List (ℕ × ℕ))
  | [], _, _ => none
  | a :: rest, entropy, attempt =>
    match DontPanic opName a.result with
    | none => some (1, [])
    | some _ =>
      if a.elapsedMs < minFunctionRuntimeSecs * 1000 then
        match WithRestartAux opName rest entropy.tail (attempt + 1) with
        | none => none
        | some (n, sleeps) =>
          some (n + 1,
            (attempt, BackoffMs attempt 100 64000 (entropy.headD 0)) :: sleeps)
      else
        match WithRestartAux opName rest entropy 0 with
        | none => none
        | some (n, sleeps) => some (n + 1, sleeps)

/-- `WithRestart(opName, f)` (src/dont_panic.go lines 72-97): the loop of
`WithRestartAux` started with `var attempt int` = 0. -/
def WithRestart (opName : String) (trace : List Attempt) (entropy : List ℕ) :
    Option (ℕ × List (ℕ × ℕ)) :=
  WithRestartAux opName trace entropy 0

/-- The loop body of `UntilSuccessful` (src/dont_panic.go lines 106-119)
over a finite trace of task outcomes (elapsed time is never consulted).
On failure it always sleeps `Backoff(attempt, 100, 64000)` and increments
the counter. -/
def UntilSuccessfulAux (opName : String) :
    List TaskResult → List ℕ → ℕ → Option (ℕ × List (ℕ × ℕ))
  | [], _, _ => none
  | a :: rest, entropy, attempt =>
    match DontPanic opName a with
    | none => some (1, [])
    | some _ =>
      match UntilSuccessfulAux opName rest entropy.tail (attempt + 1) with
      | none => none
      | some (n, sleeps) =>
        some (n + 1,
          (attempt, BackoffMs attempt 100 64000 (entropy.headD 0)) :: sleeps)

/-- `UntilSuccessful(opName, f)` (src/dont_panic.go lines 101-120): the
loop of `UntilSuccessfulAux` started with `var attempt int` = 0. -/
def UntilSuccessful (opName : String) (trace : List TaskResult)
    (entropy : List ℕ) : Option (ℕ × List (ℕ × ℕ)) :=
  UntilSuccessfulAux opName trace entropy 0

/-- `needle` occurs as a contiguous substring of `hay`. -/
def strContains (hay needle : String) : Prop :=
  ∃ pre post, hay = pre ++ needle ++ post

/-- C6: when the task terminates normally, `DontPanic` returns exactly the
value the task returned — nil for nil, and the task's own error value for a
non-nil error. -/
theorem DontPanic_passes_through_normal_return (opName : String)
    (e : Option GoErr) : DontPanic opName (.returns e) = e := rfl

/-- C1: when the task panics with a (string) payload `p`, `DontPanic`
intercepts the fault — it returns a value instead of propagating the panic
— and the returned error is non-nil with text containing the `%#v`
representation of `p`; in particular for payload "boom" the text contains
"boom". -/
theorem DontPanic_traps_panic (opName p : String) :
    (∃ msg, DontPanic opName (.panics (.strVal p)) = some msg ∧
      strContains msg (goSharpV p)) ∧
    (∃ msg, DontPanic opName (.panics (.strVal "boom")) = some msg ∧
      strContains msg "boom") := by
  refine ⟨⟨goSharpV p, rfl, "", "", by simp⟩,
    ⟨goSharpV "boom", rfl, "\"", "\"", by decide⟩⟩

/-- C10: a panic with a nil payload is trapped by `DontPanic` but reported
as success (nil error), because `recover()` returns nil and the
`panicErr != nil` guard leaves the zero-valued named return in place;
consequently both supervisors treat such an attempt as successful and stop
after that single invocation. -/
theorem DontPanic_nil_panic_is_success (opName : String) (entropy : List ℕ)
    (ms : ℕ) :
    DontPanic opName (.panics .nilVal) = none ∧
    UntilSuccessful opName [.panics .nilVal] entropy = some (1, []) ∧
    WithRestart opName [⟨.panics .nilVal, ms⟩] entropy = some (1, []) :=
  ⟨rfl, rfl, rfl⟩

/-- C2 counterexample: at `attempts = 0`, `jitterMs = 0` (allowed by the
claim, which quantifies over `jitterMs ≥ 0`) and `maxMs = 1`, the call does
not return the min formula for any jitter draw: `rand.Intn(0)` panics,
modelled by `none`. -/
theorem ExponentialBackoffMS_zero_jitter_faults :
    ExponentialBackoffMS 0 0 1 0 = none := rfl

/-- C2 (amended to `jitterMs ≥ 1`): the result of `ExponentialBackoffMS`
equals `min(2^attempts * 1000 + r, maxMs)` for some jitter draw
`0 ≤ r < jitterMs`. -/
theorem ExponentialBackoffMS_formula (attempts jitterMS maxMS entropy : ℕ)
    (hj : 1 ≤ jitterMS) :
    ∃ r, r < jitterMS ∧
      ExponentialBackoffMS attempts jitterMS maxMS entropy =
        some (min (2 ^ attempts * 1000 + r) maxMS) := by
  have h0 : jitterMS ≠ 0 := by omega
  exact ⟨entropy % jitterMS, Nat.mod_lt _ hj,
    by simp [ExponentialBackoffMS, randIntn, backoffBaseMs, h0]⟩

/-- Witness for the amended C2 at `attempts = 0`, `jitterMs = 100`,
`maxMs = 64000`, entropy 7. -/
theorem ExponentialBackoffMS_formula_witness :
    1 ≤ 100 ∧ ∃ r, r < 100 ∧
      ExponentialBackoffMS 0 100 64000 7 =
        some (min (2 ^ 0 * 1000 + r) 64000) :=
  ⟨by decide, ExponentialBackoffMS_formula 0 100 64000 7 (by decide)⟩

/-- C7 counterexample: at `attempts = 3`, `jitterMs = 0` (allowed by the
claim) and `maxMs = 500`, the call faults (`rand.Intn(0)` panics, modelled
by `none`) instead of returning normally. -/
theorem ExponentialBackoffMS_faults_without_jitter :
    ExponentialBackoffMS 3 0 500 9 = none := rfl

/-- C7 (amended to `jitterMs ≥ 1`): `ExponentialBackoffMS` returns
normally and its result lies in `[min(2^attempts * 1000, maxMs), maxMs]` —
in particular in `[0, maxMs]`, and jitter only adds before capping. -/
theorem ExponentialBackoffMS_bounds (attempts jitterMS maxMS entropy : ℕ)
    (hj : 1 ≤ jitterMS) :
    ∃ v, ExponentialBackoffMS attempts jitterMS maxMS entropy = some v ∧
      min (2 ^ attempts * 1000) maxMS ≤ v ∧ v ≤ maxMS := by
  have h0 : jitterMS ≠ 0 := by omega
  refine ⟨min (backoffBaseMs attempts + entropy % jitterMS) maxMS,
    by simp [ExponentialBackoffMS, randIntn, h0], ?_, min_le_right _ _⟩
  have hbase : 2 ^ attempts * 1000 ≤ backoffBaseMs attempts + entropy % jitterMS := by
    unfold backoffBaseMs; omega
  exact min_le_min hbase (le_refl maxMS)

/-- Witness for the amended C7 at `attempts = 2`, `jitterMs = 100`,
`maxMs = 64000`, entropy 55. -/
theorem ExponentialBackoffMS_bounds_witness :
    1 ≤ 100 ∧ ∃ v, ExponentialBackoffMS 2 100 64000 55 = some v ∧
      min (2 ^ 2 * 1000) 64000 ≤ v ∧ v ≤ 64000 :=
  ⟨by decide, ExponentialBackoffMS_bounds 2 100 64000 55 (by decide)⟩

/-- C8: with `jitterMs` and `maxMs` fixed, the uncapped base term
`2^attempts * 1000` is strictly increasing in `attempts`, and once the base
term reaches the cap (`maxMs ≤ 2^a * 1000`) the output of
`ExponentialBackoffMS` equals `maxMs` for that attempt count and every
larger one, whatever the jitter draw. -/
theorem ExponentialBackoffMS_monotone_base_and_cap :
    (∀ a b : ℕ, a < b → backoffBaseMs a < backoffBaseMs b) ∧
    (∀ a b jitterMS maxMS entropy : ℕ, 1 ≤ jitterMS →
      maxMS ≤ backoffBaseMs a → a ≤ b →
      ExponentialBackoffMS b jitterMS maxMS entropy = some maxMS) := by
  constructor
  · intro a b hab
    unfold backoffBaseMs
    have h2 : 2 ^ a < 2 ^ b := Nat.pow_lt_pow_right one_lt_two hab
    omega
  · intro a b j m e hj hcap hab
    have h0 : j ≠ 0 := by omega
    have hpow : 2 ^ a ≤ 2 ^ b := Nat.pow_le_pow_right (by omega) hab
    have hbase : m ≤ backoffBaseMs b + e % j := by
      unfold backoffBaseMs at *; omega
    simp [ExponentialBackoffMS, randIntn, h0, Nat.min_eq_right hbase]

/-- Witness for C8: strict growth from attempts 1 to 2, and staying capped
at `maxMs = 64000` from attempts 7 through 9 with jitter 100. -/
theorem ExponentialBackoffMS_monotone_base_and_cap_witness :
    backoffBaseMs 1 < backoffBaseMs 2 ∧
    (1 ≤ 100 ∧ 64000 ≤ backoffBaseMs 7 ∧ 7 ≤ 9 ∧
      ExponentialBackoffMS 9 100 64000 123 = some 64000) :=
  ⟨ExponentialBackoffMS_monotone_base_and_cap.1 1 2 (by decide),
    by decide, by decide, by decide,
    ExponentialBackoffMS_monotone_base_and_cap.2 7 9 100 64000 123
      (by decide) (by decide) (by decide)⟩

/-- C9: the convenience form `GetNextBackOffMilliseconds` is exactly the
general calculator with `jitterMs = 5000` and `maxMs = 64000`: for every
attempt count and every value of the shared entropy source it produces the
spec's fixed-parameter formula `min(2^attempts * 1000 + r, 64000)` with
`r = entropy mod 5000`. -/
theorem GetNextBackOffMilliseconds_refines_spec (attempts entropy : ℕ) :
    GetNextBackOffMilliseconds attempts entropy =
      some (nextBackoffMsSpec attempts entropy) := by
  simp [GetNextBackOffMilliseconds, ExponentialBackoffMS, randIntn,
    backoffBaseMs, nextBackoffMsSpec]

/-- C3: `WithRestart` returns only when an attempt succeeds (first
conjunct, over every trace), and a failed attempt that ran for less than
60 seconds triggers a `Backoff(attempt, 100, 64000)` sleep followed by an
increment of the counter; hence a task failing twice quickly and then
succeeding is invoked exactly 3 times, with sleeps recorded at attempt
counters 0 and 1 (second conjunct). -/
theorem WithRestart_fast_failures (opName : String) :
    (∀ (trace : List Attempt) (entropy : List ℕ) (att n : ℕ)
        (sleeps : List (ℕ × ℕ)),
        WithRestartAux opName trace entropy att = some (n, sleeps) →
        ∃ a ∈ trace, DontPanic opName a.result = none) ∧
    (∀ (a1 a2 a3 : Attempt) (entropy : List ℕ),
        (DontPanic opName a1.result).isSome = true →
        a1.elapsedMs < minFunctionRuntimeSecs * 1000 →
        (DontPanic opName a2.result).isSome = true →
        a2.elapsedMs < minFunctionRuntimeSecs * 1000 →
        DontPanic opName a3.result = none →
        WithRestart opName [a1, a2, a3] entropy =
          some (3, [(0, BackoffMs 0 100 64000 (entropy.headD 0)),
                    (1, BackoffMs 1 100 64000 (entropy.tail.headD 0))])) := by
  constructor
  · intro trace
    induction trace with
    | nil => intro entropy att n s h; simp [WithRestartAux] at h
    | cons a rest ih =>
      intro entropy att n s h
      cases hd : DontPanic opName a.result with
      | none => exact ⟨a, by simp, hd⟩
      | some e =>
        rw [WithRestartAux, hd] at h
        by_cases hlt : a.elapsedMs < minFunctionRuntimeSecs * 1000
        · rw [if_pos hlt] at h
          cases hrec : WithRestartAux opName rest entropy.tail (att + 1) with
          | none => rw [hrec] at h; simp at h
          | some p =>
            obtain ⟨b, hb, hbn⟩ := ih entropy.tail (att + 1) p.1 p.2
              (by rw [hrec])
            exact ⟨b, by simp [hb], hbn⟩
        · rw [if_neg hlt] at h
          cases hrec : WithRestartAux opName rest entropy 0 with
          | none => rw [hrec] at h; simp at h
          | some p =>
            obtain ⟨b, hb, hbn⟩ := ih entropy 0 p.1 p.2 (by rw [hrec])
            exact ⟨b, by simp [hb], hbn⟩
  · intro a1 a2 a3 entropy h1 hlt1 h2 hlt2 h3
    obtain ⟨e1, he1⟩ := Option.isSome_iff_exists.mp h1
    obtain ⟨e2, he2⟩ := Option.isSome_iff_exists.mp h2
    simp [WithRestart, WithRestartAux, he1, he2, h3, hlt1, hlt2]

/-- Witness for C3: both conjuncts applied at a concrete trace — a
returned error after 5 ms, a "boom" panic after 10 ms, then success, with
entropy draws 3 and 250. -/
theorem WithRestart_fast_failures_witness :
    (WithRestartAux "w" [⟨.returns none, 0⟩] [] 4 = some (1, []) →
      ∃ a ∈ [(⟨.returns none, 0⟩ : Attempt)],
        DontPanic "w" a.result = none) ∧
    ((DontPanic "x" (.returns (some "e1"))).isSome = true ∧
      (5 : ℕ) < minFunctionRuntimeSecs * 1000 ∧
      (DontPanic "x" (.panics (.strVal "boom"))).isSome = true ∧
      (10 : ℕ) < minFunctionRuntimeSecs * 1000 ∧
      DontPanic "x" (.returns none) = none ∧
      WithRestart "x" [⟨.returns (some "e1"), 5⟩,
          ⟨.panics (.strVal "boom"), 10⟩, ⟨.returns none, 0⟩] [3, 250] =
        some (3, [(0, BackoffMs 0 100 64000 3),
                  (1, BackoffMs 1 100 64000 250)])) :=
  ⟨(WithRestart_fast_failures "w").1 [⟨.returns none, 0⟩] [] 4 1 [],
    by decide, by decide, by decide, by decide, rfl,
    (WithRestart_fast_failures "x").2 ⟨.returns (some "e1"), 5⟩
      ⟨.panics (.strVal "boom"), 10⟩ ⟨.returns none, 0⟩ [3, 250]
      (by decide) (by decide) (by decide) (by decide) rfl⟩

/-- C4: in `WithRestart`, a failed attempt that ran for at least 60
seconds resets the attempt counter to 0 and performs no backoff sleep
before the next invocation (first conjunct, over every continuation);
hence a task that twice runs ≥ 60 s before failing and then succeeds is
invoked 3 times with no backoff sleep at all — a fortiori every backoff
used corresponds to a counter of 0, not 1 or 2 (second conjunct). -/
theorem WithRestart_long_runtime_resets (opName : String) :
    (∀ (a : Attempt) (rest : List Attempt) (entropy : List ℕ) (att : ℕ),
        (DontPanic opName a.result).isSome = true →
        minFunctionRuntimeSecs * 1000 ≤ a.elapsedMs →
        WithRestartAux opName (a :: rest) entropy att =
          (WithRestartAux opName rest entropy 0).map fun p =>
            (p.1 + 1, p.2)) ∧
    (∀ (a1 a2 a3 : Attempt) (entropy : List ℕ),
        (DontPanic opName a1.result).isSome = true →
        minFunctionRuntimeSecs * 1000 ≤ a1.elapsedMs →
        (DontPanic opName a2.result).isSome = true →
        minFunctionRuntimeSecs * 1000 ≤ a2.elapsedMs →
        DontPanic opName a3.result = none →
        WithRestart opName [a1, a2, a3] entropy = some (3, [])) := by
  constructor
  · intro a rest entropy att h hge
    obtain ⟨e, he⟩ := Option.isSome_iff_exists.mp h
    have hnlt : ¬a.elapsedMs < minFunctionRuntimeSecs * 1000 :=
      Nat.not_lt.mpr hge
    cases hrec : WithRestartAux opName rest entropy 0 with
    | none => simp [WithRestartAux, he, hnlt, hrec]
    | some p =>
      obtain ⟨n, sleeps⟩ := p
      simp [WithRestartAux, he, hnlt, hrec]
  · intro a1 a2 a3 entropy h1 hge1 h2 hge2 h3
    obtain ⟨e1, he1⟩ := Option.isSome_iff_exists.mp h1
    obtain ⟨e2, he2⟩ := Option.isSome_iff_exists.mp h2
    simp [WithRestart, WithRestartAux, he1, he2, h3,
      Nat.not_lt.mpr hge1, Nat.not_lt.mpr hge2]

/-- Witness for C4: both conjuncts applied at a concrete trace — two
failures after 60 s and 61 s of runtime, then success. -/
theorem WithRestart_long_runtime_resets_witness :
    WithRestartAux "y" [⟨.returns (some "e"), 70000⟩] [] 5 =
      (WithRestartAux "y" [] [] 0).map (fun p => (p.1 + 1, p.2)) ∧
    WithRestart "x" [⟨.returns (some "x1"), 60000⟩,
        ⟨.panics (.strVal "p"), 61000⟩, ⟨.returns none, 3⟩] [7, 8] =
      some (3, []) :=
  ⟨(WithRestart_long_runtime_resets "y").1 ⟨.returns (some "e"), 70000⟩ []
      [] 5 (by decide) (by decide),
    (WithRestart_long_runtime_resets "x").2 ⟨.returns (some "x1"), 60000⟩
      ⟨.panics (.strVal "p"), 61000⟩ ⟨.returns none, 3⟩ [7, 8]
      (by decide) (by decide) (by decide) (by decide) rfl⟩

/-- Helper for C5: unrolling `UntilSuccessfulAux` over a trace of failures
followed by one success, from an arbitrary starting counter. -/
theorem UntilSuccessfulAux_unroll (opName : String)
    (trace : List TaskResult) (succ : TaskResult) :
    ∀ (entropy : List ℕ) (att : ℕ),
      (∀ a ∈ trace, (DontPanic opName a).isSome = true) →
      DontPanic opName succ = none →
      UntilSuccessfulAux opName (trace ++ [succ]) entropy att =
        some (trace.length + 1,
          (List.range trace.length).map fun k =>
            (att + k,
              BackoffMs (att + k) 100 64000 ((entropy.drop k).headD 0))) := by
  induction trace with
  | nil =>
    intro entropy att _ hsucc
    simp [UntilSuccessfulAux, hsucc]
  | cons a rest ih =>
    intro entropy att hfail hsucc
    obtain ⟨e, he⟩ := Option.isSome_iff_exists.mp (hfail a (by simp))
    have hrest : ∀ b ∈ rest, (DontPanic opName b).isSome = true :=
      fun b hb => hfail b (by simp [hb])
    rw [List.cons_append, UntilSuccessfulAux, he,
      ih entropy.tail (att + 1) hrest hsucc]
    simp only [List.length_cons, List.range_succ_eq_map, List.map_cons,
      List.map_map, Nat.add_zero, List.drop_zero]
    refine congrArg some (congrArg (Prod.mk (rest.length + 1 + 1))
      (congrArg (List.cons _) ?_))
    apply List.map_congr_left
    intro k _
    simp only [Function.comp_apply, Nat.succ_eq_add_one]
    have hdrop : entropy.tail.drop k = entropy.drop (k + 1) := by
      rw [← List.drop_one, List.drop_drop, Nat.add_comm]
    have harith : att + 1 + k = att + (k + 1) := by omega
    rw [hdrop, harith]

/-- C5: for every N ≥ 0, `UntilSuccessful` on a task that fails on its
first N invocations (here: a trace of N failing outcomes, of any kind and
regardless of runtime, which the loop never consults) and succeeds on
invocation N+1 invokes the task exactly N+1 times, sleeping
`Backoff(attempt, 100, 64000)` after each of the N failures with the
counter incremented after every failure, so the recorded sleeps carry
attempt counters 0, 1, …, N-1. -/
theorem UntilSuccessful_retries_each_failure (opName : String)
    (trace : List TaskResult) (succ : TaskResult) (entropy : List ℕ)
    (hfail : ∀ a ∈ trace, (DontPanic opName a).isSome = true)
    (hsucc : DontPanic opName succ = none) :
    ∃ sleeps, UntilSuccessful opName (trace ++ [succ]) entropy =
        some (trace.length + 1, sleeps) ∧
      sleeps = (List.range trace.length).map (fun k =>
        (k, BackoffMs k 100 64000 ((entropy.drop k).headD 0))) ∧
      sleeps.map Prod.fst = List.range trace.length := by
  refine ⟨_, ?_, rfl, ?_⟩
  · rw [UntilSuccessful, UntilSuccessfulAux_unroll opName trace succ entropy
      0 hfail hsucc]
    simp
  · rw [List.map_map]
    have hid : (Prod.fst ∘ fun k =>
        ((k, BackoffMs k 100 64000 ((entropy.drop k).headD 0)) : ℕ × ℕ)) =
          id := funext fun k => rfl
    rw [hid, List.map_id]

/-- Witness for C5 with N = 2: a returned error and a panic, then
success, with entropy draws 3 and 250. -/
theorem UntilSuccessful_retries_each_failure_witness :
    (∀ a ∈ [TaskResult.returns (some "a"), .panics (.strVal "b")],
      (DontPanic "x" a).isSome = true) ∧
    DontPanic "x" (.returns none) = none ∧
    ∃ sleeps,
      UntilSuccessful "x"
          ([TaskResult.returns (some "a"), .panics (.strVal "b")] ++
            [.returns none]) [3, 250] =
        some ([TaskResult.returns (some "a"),
          .panics (.strVal "b")].length + 1, sleeps) ∧
      sleeps = (List.range [TaskResult.returns (some "a"),
          .panics (.strVal "b")].length).map (fun k =>
        (k, BackoffMs k 100 64000 (([3, 250].drop k).headD 0))) ∧
      sleeps.map Prod.fst =
        List.range [TaskResult.returns (some "a"),
          .panics (.strVal "b")].length :=
  ⟨by decide, rfl,
    UntilSuccessful_retries_each_failure "x"
      [TaskResult.returns (some "a"), .panics (.strVal "b")]
      (.returns none) [3, 250] (by decide) rfl⟩

end Recovery
